import Mathlib

/-!
Shallow embedding of the plagiarism-detection core of the quiz server
(`PlagiarismDetector` class).  JavaScript strings are modelled as lists of
characters (`JSString`), JavaScript numbers as exact rationals (`ℚ`), and
nullable / optional fields as `Option`.  JavaScript truthiness (`if (x && y)`)
is modelled explicitly by `truthy`.  `JSON.stringify` equality on normalized
answers coincides with structural equality of the `Answer` datatype, and is
modelled as decidable equality.
-/

namespace PlagiarismDetector

/-- JavaScript strings, modelled as lists of characters
(`.length` is the list length, `===` is decidable equality). -/
abbrev JSString := List Char

/-- A scalar JSON value appearing inside an array answer
(multi-select / ordering questions hold arrays of such values). -/
inductive Scalar where
  | str (s : JSString)
  | num (q : ℚ)
  | bool (b : Bool)
deriving DecidableEq

/-- A quiz answer: string, number, boolean, array of scalar values, or
null/undefined (both collapsed to `null`, as `normalizeAnswer` treats them
identically).  `JSON.stringify` equality of two such values is exactly
structural equality, so the source's stringify-comparison is modelled by
decidable equality on this type. -/
inductive Answer where
  | str (s : JSString)
  | num (q : ℚ)
  | bool (b : Bool)
  | arr (l : List Scalar)
  | null
deriving DecidableEq

/-- JavaScript truthiness of a (normalized) answer value:
`null`/`undefined`, `""`, `0`, and `false` are falsy; arrays (objects) are
always truthy. Models the `answer1 && answer2` guards in the source. -/
def truthy : Answer → Bool
  | .str s => !s.isEmpty
  | .num q => q != 0
  | .bool b => b
  | .arr _ => true
  | .null => false

/-- Lowercasing of a JS string (`toLowerCase`), character by character. -/
def jsToLower (s : JSString) : JSString := s.map Char.toLower

/-- Trimming of a JS string (`trim`): drop whitespace from both ends. -/
def jsTrim (s : JSString) : JSString :=
  ((s.dropWhile Char.isWhitespace).reverse.dropWhile Char.isWhitespace).reverse

/-- `normalizeAnswer` from the source: strings are lowercased and trimmed,
null/undefined stay null, everything else passes through unchanged. -/
def normalizeAnswer : Answer → Answer
  | .str s => .str (jsTrim (jsToLower s))
  | .null => .null
  | a => a

theorem length_dropWhileWS_le (p : Char → Bool) (l : List Char) :
    (l.dropWhile p).length ≤ l.length := by
  induction l with
  | nil => simp [List.dropWhile]
  | cons c cs ih =>
    simp only [List.dropWhile]
    split
    · exact Nat.le_succ_of_le ih
    · exact Nat.le_refl _

/-- `String.prototype.split(/\s+/)` of JavaScript: split at maximal runs of
whitespace, keeping an empty token at a boundary that starts or ends with
whitespace.  In particular the empty string splits to `[""]` (a singleton
list holding the empty token), never to `[]`. -/
def jsSplitWS : JSString → List JSString
  | [] => [[]]
  | c :: cs =>
    if c.isWhitespace then
      [] :: jsSplitWS (cs.dropWhile Char.isWhitespace)
    else
      match jsSplitWS cs with
      | [] => [[c]]
      | t :: ts => (c :: t) :: ts
termination_by s => s.length
decreasing_by
  · exact Nat.lt_succ_of_le (length_dropWhileWS_le Char.isWhitespace cs)
  · exact Nat.lt_succ_self _

/-- `jaccardSimilarity` from the source: word sets of the two lowercased
strings (JS `Set` of the `split(/\s+/)` tokens), then
`|intersection| / |union|`, with the `union.size === 0` guard returning 0. -/
def jaccardSimilarity (str1 str2 : JSString) : ℚ :=
  let set1 : Finset JSString := (jsSplitWS (jsToLower str1)).toFinset
  let set2 : Finset JSString := (jsSplitWS (jsToLower str2)).toFinset
  let intersection := set1 ∩ set2
  let union := set1 ∪ set2
  if union.card = 0 then 0 else (intersection.card : ℚ) / (union.card : ℚ)

/-- `levenshteinDistance` from the source.  The source fills the classic DP
table `dp[i][j]` over prefixes with
`dp[i][j] = dp[i-1][j-1]` on equal characters and otherwise
`min(dp[i-1][j] + 1, dp[i][j-1] + 1, dp[i-1][j-1] + 1)`;
this is the memoized form of the following recurrence. -/
def levenshteinDistance : JSString → JSString → ℕ
  | [], ys => ys.length
  | x :: xs, [] => (x :: xs).length
  | x :: xs, y :: ys =>
    if x = y then levenshteinDistance xs ys
    else
      min (levenshteinDistance xs (y :: ys) + 1)
        (min (levenshteinDistance (x :: xs) ys + 1)
          (levenshteinDistance xs ys + 1))
termination_by s1 s2 => (s1.length, s2.length)

/-- `levenshteinSimilarity` from the source:
`1 − distance / max(len1, len2)`, and 1 when both strings are empty. -/
def levenshteinSimilarity (str1 str2 : JSString) : ℚ :=
  let distance := levenshteinDistance str1 str2
  let maxLength := max str1.length str2.length
  if maxLength = 0 then 1 else 1 - (distance : ℚ) / (maxLength : ℚ)

/-- `calculateVariance` from the source (population variance, divisor `N`). -/
def calculateVariance (numbers : List ℚ) : ℚ :=
  if numbers.length = 0 then 0
  else
    let avg := numbers.sum / (numbers.length : ℚ)
    (numbers.map (fun num => (num - avg) ^ 2)).sum / (numbers.length : ℚ)

/-- JavaScript `Math.round`: round half toward positive infinity,
i.e. `⌊x + 1/2⌋`. -/
def jsRound (q : ℚ) : ℤ := ⌊q + 1 / 2⌋

/-- `getSeverity` from the source. -/
def getSeverity (score : ℚ) : String :=
  if score ≥ 80 then "HIGH"
  else if score ≥ 60 then "MEDIUM"
  else if score ≥ 40 then "LOW"
  else "INFO"

/-- Constructor threshold: `this.similarityThreshold = 0.85`. -/
def similarityThreshold : ℚ := 17 / 20

/-- Constructor threshold: `this.typingSpeedThreshold.min = 10` (WPM). -/
def typingSpeedThresholdMin : ℚ := 10

/-- Constructor threshold: `this.typingSpeedThreshold.max = 500` (WPM). -/
def typingSpeedThresholdMax : ℚ := 500

/-- Constructor threshold: `this.suspiciousTimeThreshold = 2` (s/question). -/
def suspiciousTimeThreshold : ℚ := 2

/-- Keystroke telemetry (`typingData`); optional sub-fields are `Option`. -/
structure PausePatterns where
  longPauses : ℚ
  avgPause : ℚ
deriving DecidableEq

structure TypingData where
  questionTypingSpeeds : Option (List ℚ)
  pausePatterns : Option PausePatterns
  answerChanges : Option (List ℚ)
  totalTime : ℚ
  totalQuestions : ℚ
deriving DecidableEq

/-- A quiz submission.  `timestamp` is the parsed epoch-millisecond value of
the submission's timestamp string (`none` models an absent/unparseable one). -/
structure Submission where
  participantId : ℕ
  participantName : JSString
  answers : Option (List Answer)
  completionTime : Option ℚ
  timestamp : Option ℚ
  typingData : Option TypingData
  questionTimes : Option (List ℚ)
deriving DecidableEq

/-- Questions are used by the core only through `questions.length`. -/
abbrev Question := Unit

/-- Per-position score of `calculateAnswerSimilarity`, applied to the two
normalized answers of a comparable position: strings with either length
over 20 take the fuzzy Jaccard/Levenshtein average, shorter strings exact
equality, and non-string values `JSON.stringify` (structural) equality. -/
def answerPairScore (answer1 answer2 : Answer) : ℚ :=
  match answer1, answer2 with
  | .str s1, .str s2 =>
    if s1.length > 20 ∨ s2.length > 20 then
      (jaccardSimilarity s1 s2 + levenshteinSimilarity s1 s2) / 2
    else if s1 = s2 then 1 else 0
  | a1, a2 => if a1 = a2 then 1 else 0

/-- One iteration of the loop in `calculateAnswerSimilarity`: the accumulator
is `(totalSimilarity, comparableAnswers)`, and a position counts only when
both normalized answers are truthy (the `if (answer1 && answer2)` guard). -/
def similarityStep (acc : ℚ × ℕ) (pair : Answer × Answer) : ℚ × ℕ :=
  let answer1 := normalizeAnswer pair.1
  let answer2 := normalizeAnswer pair.2
  if truthy answer1 && truthy answer2 then
    (acc.1 + answerPairScore answer1 answer2, acc.2 + 1)
  else acc

/-- `calculateAnswerSimilarity` from the source: 0 when either answer list is
null/undefined or the lengths differ; otherwise the mean per-position score
over the comparable positions, 0 when none is comparable. -/
def calculateAnswerSimilarity (answers1 answers2 : Option (List Answer)) : ℚ :=
  match answers1, answers2 with
  | some l1, some l2 =>
    if l1.length = l2.length then
      let result := (l1.zip l2).foldl similarityStep (0, 0)
      if result.2 > 0 then result.1 / (result.2 : ℚ) else 0
    else 0
  | _, _ => 0

/-- `getMatchingAnswers` from the source: indices `i < answers1.length` where
both normalized answers are truthy and `JSON.stringify`-equal (an index past
`answers2`'s end reads `undefined`, which normalizes to null and is falsy). -/
def getMatchingAnswers (answers1 answers2 : List Answer) : List ℕ :=
  (List.range answers1.length).filter fun i =>
    let a1 := normalizeAnswer (answers1.getD i .null)
    let a2 := normalizeAnswer (answers2.getD i .null)
    truthy a1 && truthy a2 && a1 == a2

/-- One entry of the `suspicious` list built by `detectAnswerSimilarity`. -/
structure SuspiciousMatch where
  participantId : ℕ
  participantName : JSString
  similarityScore : ℤ
  matchingAnswers : List ℕ
deriving DecidableEq

/-- One iteration of the loop in `detectAnswerSimilarity` over
`allSubmissions`, accumulating `(suspicious, maxScore)`: self-comparisons and
null answer lists are skipped, and only pairs at or above
`similarityThreshold` are recorded and fed into `maxScore`. -/
def similarityFoldStep (submission : Submission)
    (acc : List SuspiciousMatch × ℚ) (other : Submission) :
    List SuspiciousMatch × ℚ :=
  if other.participantId = submission.participantId ∨ other.answers = none then
    acc
  else
    let similarity := calculateAnswerSimilarity submission.answers other.answers
    if similarity ≥ similarityThreshold then
      (acc.1 ++ [⟨other.participantId, other.participantName,
          jsRound (similarity * 100),
          getMatchingAnswers (submission.answers.getD []) (other.answers.getD [])⟩],
        max acc.2 (similarity * 100))
    else acc

/-- `detectAnswerSimilarity` from the source; returns
`(suspicious, maxScore)`. -/
def detectAnswerSimilarity (submission : Submission)
    (allSubmissions : List Submission) : List SuspiciousMatch × ℚ :=
  allSubmissions.foldl (similarityFoldStep submission) ([], 0)

/-- Section `// 1. Check typing speed consistency` of `analyzeTypingPattern`
(`typingData.questionTypingSpeeds || []` is `getD []`).
The source's only use of `Math.sqrt` is the test
`stdDev < avgSpeed * 0.1 && avgSpeed > 100` with `stdDev = √variance`;
since `variance ≥ 0`, under `avgSpeed > 100` this is equivalent to
`variance < (avgSpeed * 0.1)² ∧ avgSpeed > 100` (and both forms are false
when `avgSpeed ≤ 100`), which is how it is embedded over `ℚ`. -/
def typingSpeedPart (typingData : TypingData) : List String × ℚ :=
  let speeds := typingData.questionTypingSpeeds.getD []
  if speeds.length > 0 then
    let avgSpeed := speeds.sum / (speeds.length : ℚ)
    let variance := calculateVariance speeds
    let avgPart : List String × ℚ :=
      if avgSpeed < typingSpeedThresholdMin then
        (["Extremely slow typing speed"], 30)
      else if avgSpeed > typingSpeedThresholdMax then
        (["Unrealistically fast typing speed"], 40)
      else ([], 0)
    let consistencyPart : List String × ℚ :=
      if variance < (avgSpeed * (1 / 10)) ^ 2 ∧ avgSpeed > 100 then
        (["Suspiciously consistent typing speed"], 35)
      else ([], 0)
    (avgPart.1 ++ consistencyPart.1, avgPart.2 + consistencyPart.2)
  else ([], 0)

/-- Section `// 2. Check pause patterns` of `analyzeTypingPattern`. -/
def typingPausePart (typingData : TypingData) : List String × ℚ :=
  match typingData.pausePatterns with
  | some pp =>
    let fewPart : List String × ℚ :=
      if pp.longPauses < 2 ∧ typingData.totalTime > 60 then
        (["Very few thinking pauses"], 25)
      else ([], 0)
    let longPart : List String × ℚ :=
      if pp.avgPause > 30 then
        (["Unusually long pauses between typing"], 20)
      else ([], 0)
    (fewPart.1 ++ longPart.1, fewPart.2 + longPart.2)
  | none => ([], 0)

/-- Section `// 3. Check answer change patterns` of `analyzeTypingPattern`. -/
def typingChangesPart (typingData : TypingData) : List String × ℚ :=
  match typingData.answerChanges with
  | some changes =>
    let totalChanges := changes.sum
    let noChangesPart : List String × ℚ :=
      if totalChanges = 0 ∧ typingData.totalTime > 30 then
        (["No answer revisions"], 30)
      else ([], 0)
    let excessPart : List String × ℚ :=
      if totalChanges > typingData.totalQuestions * 5 then
        (["Excessive answer revisions"], 15)
      else ([], 0)
    (noChangesPart.1 ++ excessPart.1, noChangesPart.2 + excessPart.2)
  | none => ([], 0)

/-- `analyzeTypingPattern` from the source; returns the issue labels of the
pushed flags and the anomaly score `min(sum, 100)`. -/
def analyzeTypingPattern (typingData : TypingData) : List String × ℚ :=
  let speedPart := typingSpeedPart typingData
  let pausePart := typingPausePart typingData
  let changesPart := typingChangesPart typingData
  (speedPart.1 ++ pausePart.1 ++ changesPart.1,
    min (speedPart.2 + pausePart.2 + changesPart.2) 100)

/-- Truthiness of `s.completionTime` in the peer filter of
`detectTimeAnomalies` (`s.completionTime && ...`): present and non-zero. -/
def hasCompletionTime (s : Submission) : Bool :=
  match s.completionTime with
  | some t => t != 0
  | none => false

/-- Section `// 1. Check overall completion time` of `detectTimeAnomalies`
(`submission.completionTime || 0` is `completionTime.getD 0`). -/
def timeFastPart (completionTime : ℚ) (questionCount : ℕ) : List String × ℚ :=
  if completionTime < suspiciousTimeThreshold * (questionCount : ℚ) then
    (["Suspiciously fast completion"], 40)
  else ([], 0)

/-- Section `// 2. Compare with average submission time` of
`detectTimeAnomalies`.
The source's only `Math.sqrt` here is the outlier test
`|completionTime − avgTime| > 2·stdDev` with `stdDev = √variance`; since
`variance ≥ 0` this is equivalent to
`(completionTime − avgTime)² > 4·variance`, which is how it is embedded. -/
def timePeerPart (completionTime : ℚ)
    (completedSubmissions : List Submission) : List String × ℚ :=
  if completedSubmissions.length ≥ 3 then
    let times := completedSubmissions.map fun s => s.completionTime.getD 0
    let avgTime := times.sum / (completedSubmissions.length : ℚ)
    let variance := calculateVariance times
    if (completionTime - avgTime) ^ 2 > 4 * variance then
      if completionTime < avgTime then
        (["Completion time significantly faster than peers"], 30)
      else
        (["Unusually slow completion time"], 15)
    else ([], 0)
  else ([], 0)

/-- Section `// 3. Check question-level timing if available` of
`detectTimeAnomalies`. -/
def timeQuestionPart (submission : Submission) : List String × ℚ :=
  match submission.questionTimes with
  | some questionTimes =>
    if questionTimes.length > 0 then
      let variance := calculateVariance questionTimes
      let avgQuestionTime := questionTimes.sum / (questionTimes.length : ℚ)
      let uniformPart : List String × ℚ :=
        if variance < avgQuestionTime * (1 / 10) ∧ questionTimes.length > 5 then
          (["Unnaturally consistent question timing"], 25)
        else ([], 0)
      let instantAnswers := (questionTimes.filter fun t => t < 1).length
      let instantPart : List String × ℚ :=
        if (instantAnswers : ℚ) > (questionTimes.length : ℚ) * (3 / 10) then
          (["Too many instant answers"], 35)
        else ([], 0)
      (uniformPart.1 ++ instantPart.1, uniformPart.2 + instantPart.2)
    else ([], 0)
  | none => ([], 0)

/-- Section `// 4. Check submission timing relative to others` of
`detectTimeAnomalies` (a peer without a parseable timestamp makes the
5000 ms comparison false, as `NaN` comparisons are false in JS). -/
def timeTimingPart (submission : Submission)
    (completedSubmissions : List Submission) : List String × ℚ :=
  match submission.timestamp with
  | some submissionTime =>
    if completedSubmissions.length > 0 then
      let nearbySubs := completedSubmissions.filter fun s =>
        match s.timestamp with
        | some otherTime => |submissionTime - otherTime| < 5000
        | none => false
      if nearbySubs.length ≥ 2 then
        (["Multiple submissions within 5 seconds"], 20)
      else ([], 0)
    else ([], 0)
  | none => ([], 0)

/-- `detectTimeAnomalies` from the source; returns the issue labels of the
pushed flags and the anomaly score `min(sum, 100)`. -/
def detectTimeAnomalies (submission : Submission)
    (allSubmissions : List Submission) (questions : List Question) :
    List String × ℚ :=
  let completionTime := submission.completionTime.getD 0
  let completedSubmissions := allSubmissions.filter fun s =>
    hasCompletionTime s && s.participantId != submission.participantId
  let fastPart := timeFastPart completionTime questions.length
  let peerPart := timePeerPart completionTime completedSubmissions
  let questionPart := timeQuestionPart submission
  let timingPart := timeTimingPart submission completedSubmissions
  (fastPart.1 ++ peerPart.1 ++ questionPart.1 ++ timingPart.1,
    min (fastPart.2 + peerPart.2 + questionPart.2 + timingPart.2) 100)

/-- Analyzer-specific flag payload (`details`). -/
inductive FlagDetails where
  | similarity (entries : List SuspiciousMatch)
  | issues (labels : List String)
deriving DecidableEq

/-- A flag in the analysis result.  The display-only `description` string of
the source is omitted. -/
structure Flag where
  type : String
  severity : String
  details : FlagDetails
deriving DecidableEq

structure Scores where
  answerSimilarity : ℚ
  typingPattern : ℚ
  timeAnomaly : ℚ
  overall : ℤ
deriving DecidableEq

/-- `analyzeSubmission`'s result.  The wall-clock `timestamp` field of the
source's result (impure `new Date()`) is omitted. -/
structure AnalysisResult where
  participantId : ℕ
  participantName : JSString
  isSuspicious : Bool
  suspicionScore : ℤ
  scores : Scores
  flags : List Flag
deriving DecidableEq

/-- `analyzeSubmission` from the source (the `analyze` entry point). -/
def analyzeSubmission (submission : Submission)
    (allSubmissions : List Submission) (questions : List Question) :
    AnalysisResult :=
  let similarityAnalysis := detectAnswerSimilarity submission allSubmissions
  let answerSimilarity := similarityAnalysis.2
  let similarityFlags : List Flag :=
    if similarityAnalysis.1.length > 0 then
      [⟨"ANSWER_SIMILARITY", getSeverity answerSimilarity,
        .similarity similarityAnalysis.1⟩]
    else []
  let typingAnalysis : List String × ℚ :=
    match submission.typingData with
    | some typingData => analyzeTypingPattern typingData
    | none => ([], 0)
  let typingPattern := typingAnalysis.2
  let typingFlags : List Flag :=
    if typingAnalysis.1.length > 0 then
      [⟨"TYPING_PATTERN", getSeverity typingPattern,
        .issues typingAnalysis.1⟩]
    else []
  let timeAnalysis := detectTimeAnomalies submission allSubmissions questions
  let timeAnomaly := timeAnalysis.2
  let timeFlags : List Flag :=
    if timeAnalysis.1.length > 0 then
      [⟨"TIME_ANOMALY", getSeverity timeAnomaly, .issues timeAnalysis.1⟩]
    else []
  let overall :=
    jsRound (answerSimilarity * (1 / 2) + typingPattern * (3 / 10) +
      timeAnomaly * (1 / 5))
  ⟨submission.participantId, submission.participantName,
    decide (overall ≥ 60), overall,
    ⟨answerSimilarity, typingPattern, timeAnomaly, overall⟩,
    similarityFlags ++ typingFlags ++ timeFlags⟩

/-- Stable insertion of a report into a list sorted by descending
`suspicionScore`: skip past strictly greater scores, so that equal scores
keep their relative input order. -/
def insertDescending (r : AnalysisResult) :
    List AnalysisResult → List AnalysisResult
  | [] => [r]
  | x :: xs =>
    if x.suspicionScore > r.suspicionScore then x :: insertDescending r xs
    else r :: x :: xs

/-- The source's `reports.sort((a, b) => b.suspicionScore - a.suspicionScore)`.
ECMAScript `Array.prototype.sort` is required to be stable and the comparator
induces the total preorder "descending by suspicionScore", so the sorted
array is the one produced by any stable sort for that preorder; it is
embedded as a stable insertion sort. -/
def sortByScoreDescending : List AnalysisResult → List AnalysisResult
  | [] => []
  | x :: xs => insertDescending x (sortByScoreDescending xs)

/-- `generateBatchReport`'s result.  The wall-clock `generatedAt` field of
the source (impure `new Date()`) is omitted. -/
structure BatchReport where
  totalSubmissions : ℕ
  flaggedSubmissions : ℕ
  reports : List AnalysisResult

/-- `generateBatchReport` from the source. -/
def generateBatchReport (allSubmissions : List Submission)
    (questions : List Question) : BatchReport :=
  let reports := allSubmissions.map fun submission =>
    analyzeSubmission submission allSubmissions questions
  let sorted := sortByScoreDescending reports
  ⟨allSubmissions.length,
    (sorted.filter fun r => r.isSuspicious).length,
    sorted⟩

/-!
## Theorems
-/

/-- Claim C5: the spec requires `jaccardSimilarity("", "") = 0` (empty-union
rule), and the source carries the guard `union.size === 0 ? 0` intended to
implement it; but `"".split(/\s+/)` evaluates to `[""]`, so both word sets
are the singleton of the empty token, the union is never empty, and the
function returns 1 on two empty strings.  This theorem evaluates the
embedded code at the failing input. -/
theorem jaccard_empty_empty_eq_one : jaccardSimilarity [] [] = 1 := by
  with_unfolding_all decide

/-- Claim C7 counterexample: the position holding the equal, non-null answers
`0` and `0` is not reported by `getMatchingAnswers`, because the source's
guard `a1 && a2` uses JavaScript truthiness and `0` is falsy; the claim as
stated says such a position must appear in the reported matches. -/
theorem matching_answers_drops_falsy_equal :
    getMatchingAnswers [Answer.num 0] [Answer.num 0] = [] ∧
    normalizeAnswer (Answer.num 0) = Answer.num 0 ∧
    Answer.num 0 ≠ Answer.null := by with_unfolding_all decide

/-- Claim C7 as amended: for every pair of answer sequences,
`getMatchingAnswers` reports exactly the indices (within the first sequence)
at which both answers are truthy after normalization — non-null and also not
`false`, `0`, or the empty string — and structurally equal after
normalization, independently of the 20-character long-text threshold. -/
theorem matching_answers_mem_iff (answers1 answers2 : List Answer) (i : ℕ) :
    i ∈ getMatchingAnswers answers1 answers2 ↔
      i < answers1.length ∧
      truthy (normalizeAnswer (answers1.getD i .null)) = true ∧
      truthy (normalizeAnswer (answers2.getD i .null)) = true ∧
      normalizeAnswer (answers1.getD i .null) =
        normalizeAnswer (answers2.getD i .null) := by
  simp [getMatchingAnswers, List.mem_filter, List.mem_range, and_assoc]

/-- Claim C1 counterexample: a single other submission with a distinct
participant id, non-null answers of equal length, and pairwise similarity
`0.5` (one of two short answers matching) yields `similarity × 100 = 50`,
yet the analyzer's `answerSimilarity` score is 0: `maxScore` is only updated
for pairs at or above `similarityThreshold`, so a below-threshold pair does
not contribute to the maximum, contradicting the claim. -/
theorem detect_maxScore_misses_subthreshold_pair :
    calculateAnswerSimilarity
        (some [Answer.str ['x'], Answer.str ['y']])
        (some [Answer.str ['x'], Answer.str ['z']]) * 100 = 50 ∧
    (detectAnswerSimilarity
        ⟨1, [], some [Answer.str ['x'], Answer.str ['y']], none, none, none, none⟩
        [⟨2, [], some [Answer.str ['x'], Answer.str ['z']], none, none, none, none⟩]).2
      = 0 := by with_unfolding_all decide

/-- Claim C4 counterexample: two submissions with distinct participant ids
and identical answer sequences of length 1 whose only entry is the empty
string (a short string of at most 20 characters) have pairwise similarity 0,
not 1.0, and neither is flagged: the empty string is falsy in JavaScript, so
the `answer1 && answer2` guard skips the position and no position is
comparable. -/
theorem identical_empty_answers_not_flagged :
    calculateAnswerSimilarity (some [Answer.str []]) (some [Answer.str []]) = 0 ∧
    (detectAnswerSimilarity
        ⟨1, [], some [Answer.str []], none, none, none, none⟩
        [⟨2, [], some [Answer.str []], none, none, none, none⟩]).1 = [] := by
  with_unfolding_all decide

/-- Claim C3 counterexample: a submission with absent (`null`)
`completionTime` analyzed against one question does not contribute 0 to the
`timeAnomaly` score; `completionTime || 0` coerces the absent value to 0
seconds, which is below the `2 s × questionCount` threshold, so the
"Suspiciously fast completion" penalty of 40 fires. -/
theorem missing_completionTime_scores_forty :
    (detectTimeAnomalies ⟨1, [], none, none, none, none, none⟩ [] [()]).2 = 40 ∧
    "Suspiciously fast completion" ∈
      (detectTimeAnomalies ⟨1, [], none, none, none, none, none⟩ [] [()]).1 := by
  with_unfolding_all decide

/-- Claim C2: for every submission, the overall `suspicionScore` equals
`round(answerSimilarity × 0.5 + typingPattern × 0.3 + timeAnomaly × 0.2)`,
`isSuspicious` holds exactly when that score is at least 60, and every
flag's severity follows the 80/60/40 HIGH/MEDIUM/LOW/INFO mapping applied
to its own category's score. -/
theorem analyzeSubmission_aggregation_contract (submission : Submission)
    (allSubmissions : List Submission) (questions : List Question) :
    let r := analyzeSubmission submission allSubmissions questions
    (r.suspicionScore =
      jsRound (r.scores.answerSimilarity * (1 / 2) +
        r.scores.typingPattern * (3 / 10) + r.scores.timeAnomaly * (1 / 5))) ∧
    (r.isSuspicious = true ↔ 60 ≤ r.suspicionScore) ∧
    (∀ f ∈ r.flags, ∃ c : ℚ,
      ((f.type = "ANSWER_SIMILARITY" ∧ c = r.scores.answerSimilarity) ∨
       (f.type = "TYPING_PATTERN" ∧ c = r.scores.typingPattern) ∨
       (f.type = "TIME_ANOMALY" ∧ c = r.scores.timeAnomaly)) ∧
      f.severity = (if 80 ≤ c then "HIGH" else if 60 ≤ c then "MEDIUM"
        else if 40 ≤ c then "LOW" else "INFO")) := by
  refine ⟨rfl, by simp [analyzeSubmission, ge_iff_le], ?_⟩
  intro f hf
  simp only [analyzeSubmission, List.mem_append] at hf
  rcases hf with (hf | hf) | hf
  · refine ⟨(analyzeSubmission submission allSubmissions questions).scores.answerSimilarity,
      Or.inl ⟨?_, rfl⟩, ?_⟩ <;>
    · split at hf <;> simp_all [analyzeSubmission, getSeverity, ge_iff_le]
  · refine ⟨(analyzeSubmission submission allSubmissions questions).scores.typingPattern,
      Or.inr (Or.inl ⟨?_, rfl⟩), ?_⟩ <;>
    · split at hf <;> simp_all [analyzeSubmission, getSeverity, ge_iff_le]
  · refine ⟨(analyzeSubmission submission allSubmissions questions).scores.timeAnomaly,
      Or.inr (Or.inr ⟨?_, rfl⟩), ?_⟩ <;>
    · split at hf <;> simp_all [analyzeSubmission, getSeverity, ge_iff_le]

theorem analyzeSubmission_aggregation_contract_witness :
    ((analyzeSubmission ⟨1, [], none, none, none, none, none⟩ [] [()]).isSuspicious = true ↔
      60 ≤ (analyzeSubmission ⟨1, [], none, none, none, none, none⟩ [] [()]).suspicionScore) ∧
    (analyzeSubmission ⟨1, [], none, none, none, none, none⟩ [] [()]).suspicionScore =
      jsRound ((analyzeSubmission ⟨1, [], none, none, none, none, none⟩ [] [()]).scores.answerSimilarity * (1 / 2) +
        (analyzeSubmission ⟨1, [], none, none, none, none, none⟩ [] [()]).scores.typingPattern * (3 / 10) +
        (analyzeSubmission ⟨1, [], none, none, none, none, none⟩ [] [()]).scores.timeAnomaly * (1 / 5)) :=
  ⟨(analyzeSubmission_aggregation_contract ⟨1, [], none, none, none, none, none⟩ [] [()]).2.1,
   (analyzeSubmission_aggregation_contract ⟨1, [], none, none, none, none, none⟩ [] [()]).1⟩

theorem simFold_threshold_invariant (submission : Submission) :
    ∀ (l : List Submission) (acc : List SuspiciousMatch × ℚ),
      (acc.2 = 0 ∨ 85 ≤ acc.2) → (acc.2 ≠ 0 ↔ acc.1 ≠ []) →
      ((l.foldl (similarityFoldStep submission) acc).2 = 0 ∨
        85 ≤ (l.foldl (similarityFoldStep submission) acc).2) ∧
      ((l.foldl (similarityFoldStep submission) acc).2 ≠ 0 ↔
        (l.foldl (similarityFoldStep submission) acc).1 ≠ []) := by
  intro l
  induction l with
  | nil => intro acc h1 h2; exact ⟨h1, h2⟩
  | cons o l ih =>
    intro acc h1 h2
    simp only [List.foldl_cons, similarityFoldStep]
    by_cases hskip : o.participantId = submission.participantId ∨ o.answers = none
    · rw [if_pos hskip]; exact ih acc h1 h2
    · rw [if_neg hskip]
      by_cases hth :
          calculateAnswerSimilarity submission.answers o.answers ≥ similarityThreshold
      · rw [if_pos hth]
        have h85 : (85 : ℚ) ≤
            max acc.2 (calculateAnswerSimilarity submission.answers o.answers * 100) := by
          refine le_trans ?_ (le_max_right _ _)
          unfold similarityThreshold at hth
          linarith
        refine ih _ (Or.inr h85) ?_
        have hpos : acc.2 ⊔ calculateAnswerSimilarity submission.answers o.answers * 100 ≠ 0 := by
          intro h0
          rw [h0] at h85
          norm_num at h85
        constructor
        · intro _
          simp
        · intro _
          exact hpos
      · rw [if_neg hth]; exact ih acc h1 h2

/-- Claim C10: for every submission and submission set, the
`answerSimilarity` score (`maxScore`) of the similarity analyzer is either
exactly 0 or at least 85 — never strictly in between — and it is nonzero
exactly when the `suspicious` list is non-empty: only pairs at or above the
0.85 threshold ever feed `maxScore`, and any such pair contributes at
least 85. -/
theorem answerSimilarity_zero_or_above_85 (submission : Submission)
    (allSubmissions : List Submission) :
    ((detectAnswerSimilarity submission allSubmissions).2 = 0 ∨
      85 ≤ (detectAnswerSimilarity submission allSubmissions).2) ∧
    ((detectAnswerSimilarity submission allSubmissions).2 ≠ 0 ↔
      (detectAnswerSimilarity submission allSubmissions).1 ≠ []) := by
  unfold detectAnswerSimilarity
  exact simFold_threshold_invariant submission allSubmissions ([], 0)
    (Or.inl rfl) (by simp)

theorem simFold_max_characterization (submission : Submission) :
    ∀ (l : List Submission) (acc : List SuspiciousMatch × ℚ),
      (l.foldl (similarityFoldStep submission) acc).2 =
        ((l.filter fun o =>
            decide (o.participantId ≠ submission.participantId ∧
              o.answers ≠ none ∧
              similarityThreshold ≤
                calculateAnswerSimilarity submission.answers o.answers)).map
          fun o => calculateAnswerSimilarity submission.answers o.answers * 100).foldl
            max acc.2 := by
  intro l
  induction l with
  | nil => intro acc; rfl
  | cons o l ih =>
    intro acc
    simp only [List.foldl_cons, List.filter_cons, similarityFoldStep]
    by_cases hskip : o.participantId = submission.participantId ∨ o.answers = none
    · rw [if_pos hskip]
      have hpred : decide (o.participantId ≠ submission.participantId ∧
          o.answers ≠ none ∧
          similarityThreshold ≤
            calculateAnswerSimilarity submission.answers o.answers) = false := by
        rcases hskip with h | h <;> simp [h]
      rw [hpred]
      exact ih acc
    · push_neg at hskip
      rw [if_neg (by tauto)]
      by_cases hth :
          calculateAnswerSimilarity submission.answers o.answers ≥ similarityThreshold
      · rw [if_pos hth]
        have hpred : decide (o.participantId ≠ submission.participantId ∧
            o.answers ≠ none ∧
            similarityThreshold ≤
              calculateAnswerSimilarity submission.answers o.answers) = true := by
          simp only [decide_eq_true_eq]
          exact ⟨hskip.1, hskip.2, hth⟩
        rw [hpred]
        simp only [List.map_cons, List.foldl_cons]
        exact ih _
      · rw [if_neg hth]
        have hpred : decide (o.participantId ≠ submission.participantId ∧
            o.answers ≠ none ∧
            similarityThreshold ≤
              calculateAnswerSimilarity submission.answers o.answers) = false := by
          simp only [decide_eq_false_iff_not]
          intro hc
          exact hth hc.2.2
        rw [hpred]
        exact ih acc

/-- Claim C1 as amended: the `answerSimilarity` score returned by the
similarity analyzer equals the maximum, over the other submissions with a
different `participantId`, non-null answers, and pairwise similarity at or
above the 0.85 suspicion threshold, of the per-pair similarity multiplied
by 100 (0 when no pair reaches the threshold); a pair whose similarity is
below the threshold contributes nothing to this maximum. -/
theorem detect_maxScore_eq_thresholded_max (submission : Submission)
    (allSubmissions : List Submission) :
    (detectAnswerSimilarity submission allSubmissions).2 =
      ((allSubmissions.filter fun o =>
          decide (o.participantId ≠ submission.participantId ∧
            o.answers ≠ none ∧
            similarityThreshold ≤
              calculateAnswerSimilarity submission.answers o.answers)).map
        fun o => calculateAnswerSimilarity submission.answers o.answers * 100).foldl
          max 0 := by
  unfold detectAnswerSimilarity
  exact simFold_max_characterization submission allSubmissions ([], 0)

theorem levenshteinDistance_nil_right (xs : JSString) :
    levenshteinDistance xs [] = xs.length := by
  cases xs <;> simp [levenshteinDistance]

theorem levenshteinDistance_symm (xs ys : JSString) :
    levenshteinDistance xs ys = levenshteinDistance ys xs := by
  suffices h : ∀ (n : ℕ) (xs ys : JSString), xs.length + ys.length = n →
      levenshteinDistance xs ys = levenshteinDistance ys xs from
    h (xs.length + ys.length) xs ys rfl
  intro n
  induction n using Nat.strong_induction_on with
  | _ n ih =>
    intro xs ys hn
    match xs, ys with
    | [], ys => simp [levenshteinDistance, levenshteinDistance_nil_right]
    | x :: xs, [] => simp [levenshteinDistance, levenshteinDistance_nil_right]
    | x :: xs, y :: ys =>
      have h1 : levenshteinDistance xs (y :: ys) = levenshteinDistance (y :: ys) xs :=
        ih (xs.length + (y :: ys).length) (by simp at hn ⊢; omega) _ _ rfl
      have h2 : levenshteinDistance (x :: xs) ys = levenshteinDistance ys (x :: xs) :=
        ih ((x :: xs).length + ys.length) (by simp at hn ⊢; omega) _ _ rfl
      have h3 : levenshteinDistance xs ys = levenshteinDistance ys xs :=
        ih (xs.length + ys.length) (by simp at hn ⊢; omega) _ _ rfl
      simp only [levenshteinDistance]
      by_cases hxy : x = y
      · rw [if_pos hxy, if_pos hxy.symm, h3]
      · rw [if_neg hxy, if_neg (Ne.symm hxy), h1, h2, h3]
        exact min_left_comm _ _ _

theorem levenshteinDistance_le_max (xs ys : JSString) :
    levenshteinDistance xs ys ≤ max xs.length ys.length := by
  suffices h : ∀ (n : ℕ) (xs ys : JSString), xs.length + ys.length = n →
      levenshteinDistance xs ys ≤ max xs.length ys.length from
    h (xs.length + ys.length) xs ys rfl
  intro n
  induction n using Nat.strong_induction_on with
  | _ n ih =>
    intro xs ys hn
    match xs, ys with
    | [], ys => simp [levenshteinDistance]
    | x :: xs, [] => simp [levenshteinDistance_nil_right]
    | x :: xs, y :: ys =>
      have h3 : levenshteinDistance xs ys ≤ max xs.length ys.length :=
        ih (xs.length + ys.length) (by simp at hn ⊢; omega) _ _ rfl
      simp only [levenshteinDistance]
      by_cases hxy : x = y
      · rw [if_pos hxy]
        simp only [List.length_cons]
        omega
      · rw [if_neg hxy]
        have hmin : min (levenshteinDistance xs (y :: ys) + 1)
            (min (levenshteinDistance (x :: xs) ys + 1)
              (levenshteinDistance xs ys + 1)) ≤ levenshteinDistance xs ys + 1 :=
          le_trans (min_le_right _ _) (min_le_right _ _)
        simp only [List.length_cons]
        omega

/-- Claim C8: the Levenshtein-based similarity equals 1 when both input
strings are empty (the `maxLength === 0` case) and
`1 − distance / max(len1, len2)` otherwise, and it is symmetric. -/
theorem levenshtein_similarity_spec (a b : JSString) :
    levenshteinSimilarity a b = levenshteinSimilarity b a ∧
    levenshteinSimilarity a b =
      (if a = [] ∧ b = [] then (1 : ℚ)
       else 1 - (levenshteinDistance a b : ℚ) / (max a.length b.length : ℚ)) := by
  constructor
  · simp only [levenshteinSimilarity]
    rw [levenshteinDistance_symm, Nat.max_comm]
  · simp only [levenshteinSimilarity]
    by_cases h : a = [] ∧ b = []
    · obtain ⟨rfl, rfl⟩ := h
      simp
    · have hmax : ¬max a.length b.length = 0 := by
        cases a <;> cases b <;> simp_all
      rw [if_neg hmax, if_neg h]
      simp [Nat.cast_max]

theorem mem_insertDescending {r x : AnalysisResult} {l : List AnalysisResult} :
    x ∈ insertDescending r l ↔ x = r ∨ x ∈ l := by
  induction l with
  | nil => simp [insertDescending]
  | cons y ys ih =>
    simp only [insertDescending]
    split
    · simp only [List.mem_cons, ih]
      tauto
    · simp only [List.mem_cons]

theorem pairwise_insertDescending (r : AnalysisResult) (l : List AnalysisResult)
    (h : l.Pairwise fun a b => b.suspicionScore ≤ a.suspicionScore) :
    (insertDescending r l).Pairwise
      fun a b => b.suspicionScore ≤ a.suspicionScore := by
  induction l with
  | nil => simp [insertDescending]
  | cons y ys ih =>
    simp only [insertDescending]
    rw [List.pairwise_cons] at h
    split
    · rename_i hgt
      rw [List.pairwise_cons]
      constructor
      · intro z hz
        rcases mem_insertDescending.1 hz with rfl | hz
        · exact le_of_lt hgt
        · exact h.1 z hz
      · exact ih h.2
    · rename_i hle
      rw [List.pairwise_cons]
      constructor
      · intro z hz
        rcases List.mem_cons.1 hz with rfl | hz
        · exact not_lt.mp hle
        · exact le_trans (h.1 z hz) (not_lt.mp hle)
      · exact List.pairwise_cons.2 h

theorem sorted_sortByScoreDescending (l : List AnalysisResult) :
    (sortByScoreDescending l).Pairwise
      fun a b => b.suspicionScore ≤ a.suspicionScore := by
  induction l with
  | nil => simp [sortByScoreDescending]
  | cons x xs ih => exact pairwise_insertDescending x _ ih

theorem filter_insertDescending_of_ne (r : AnalysisResult)
    (l : List AnalysisResult) (s : ℤ) (hs : ¬r.suspicionScore = s) :
    (insertDescending r l).filter (fun x => decide (x.suspicionScore = s)) =
      l.filter (fun x => decide (x.suspicionScore = s)) := by
  induction l with
  | nil => simp [insertDescending, hs]
  | cons y ys ih =>
    simp only [insertDescending]
    split
    · simp only [List.filter_cons, ih]
    · simp [List.filter_cons, hs]

theorem filter_insertDescending_of_eq (r : AnalysisResult)
    (l : List AnalysisResult) (s : ℤ) (hs : r.suspicionScore = s) :
    (insertDescending r l).filter (fun x => decide (x.suspicionScore = s)) =
      r :: l.filter (fun x => decide (x.suspicionScore = s)) := by
  induction l with
  | nil => simp [insertDescending, hs]
  | cons y ys ih =>
    simp only [insertDescending]
    split
    · rename_i hgt
      have hy : ¬y.suspicionScore = s := by omega
      simp only [List.filter_cons, ih]
      simp [hy]
    · simp [List.filter_cons, hs]

theorem filter_sortByScoreDescending (l : List AnalysisResult) (s : ℤ) :
    (sortByScoreDescending l).filter (fun x => decide (x.suspicionScore = s)) =
      l.filter (fun x => decide (x.suspicionScore = s)) := by
  induction l with
  | nil => rfl
  | cons x xs ih =>
    simp only [sortByScoreDescending]
    by_cases hx : x.suspicionScore = s
    · rw [filter_insertDescending_of_eq _ _ _ hx, ih]
      simp [List.filter_cons, hx]
    · rw [filter_insertDescending_of_ne _ _ _ hx, ih]
      simp [List.filter_cons, hx]

/-- Claim C9: the batch report's `reports` sequence is sorted in descending
order of `suspicionScore`; reports with equal scores keep their relative
input order (for every score value, filtering the sorted output by that
score yields the same sequence as filtering the unsorted per-submission
results); `totalSubmissions` is the collection's length; and
`flaggedSubmissions` counts the reports with `isSuspicious` true. -/
theorem batch_report_sorted_and_counted (allSubmissions : List Submission)
    (questions : List Question) :
    let br := generateBatchReport allSubmissions questions
    br.reports.Pairwise (fun a b => b.suspicionScore ≤ a.suspicionScore) ∧
    (∀ s : ℤ, br.reports.filter (fun r => decide (r.suspicionScore = s)) =
      (allSubmissions.map fun submission =>
        analyzeSubmission submission allSubmissions questions).filter
          fun r => decide (r.suspicionScore = s)) ∧
    br.totalSubmissions = allSubmissions.length ∧
    br.flaggedSubmissions = (br.reports.filter fun r => r.isSuspicious).length := by
  refine ⟨sorted_sortByScoreDescending _, ?_, rfl, rfl⟩
  intro s
  exact filter_sortByScoreDescending _ s

theorem timeFastPart_nonneg (completionTime : ℚ) (questionCount : ℕ) :
    0 ≤ (timeFastPart completionTime questionCount).2 := by
  unfold timeFastPart
  split <;> norm_num

theorem timePeerPart_nonneg (completionTime : ℚ)
    (completedSubmissions : List Submission) :
    0 ≤ (timePeerPart completionTime completedSubmissions).2 := by
  simp only [timePeerPart, apply_ite Prod.snd]
  split_ifs <;> norm_num

theorem timeQuestionPart_nonneg (submission : Submission) :
    0 ≤ (timeQuestionPart submission).2 := by
  unfold timeQuestionPart
  rcases submission.questionTimes with _ | qt
  · norm_num
  · simp only
    split_ifs <;> norm_num

theorem timeTimingPart_nonneg (submission : Submission)
    (completedSubmissions : List Submission) :
    0 ≤ (timeTimingPart submission completedSubmissions).2 := by
  unfold timeTimingPart
  rcases submission.timestamp with _ | ts
  · norm_num
  · simp only
    split_ifs <;> norm_num

theorem typingSpeedPart_nonneg (typingData : TypingData) :
    0 ≤ (typingSpeedPart typingData).2 := by
  simp only [typingSpeedPart]
  split_ifs <;> norm_num

theorem typingPausePart_nonneg (typingData : TypingData) :
    0 ≤ (typingPausePart typingData).2 := by
  unfold typingPausePart
  rcases typingData.pausePatterns with _ | pp
  · norm_num
  · simp only
    split_ifs <;> norm_num

theorem typingChangesPart_nonneg (typingData : TypingData) :
    0 ≤ (typingChangesPart typingData).2 := by
  unfold typingChangesPart
  rcases typingData.answerChanges with _ | ch
  · norm_num
  · simp only
    split_ifs <;> norm_num

/-- Claim C3 as amended: absent `typingData` contributes 0 to the
`typingPattern` score and a mismatched answer-sequence length makes the
compared pair's similarity 0, with no fault in either case; but a
submission with null `completionTime` is coerced to 0 seconds by
`completionTime || 0`, so whenever there is at least one question it
receives the "Suspiciously fast completion" penalty and its `timeAnomaly`
score is at least 40 rather than 0. -/
theorem optional_fields_degradation :
    (∀ (submission : Submission) (allSubmissions : List Submission)
        (questions : List Question), submission.typingData = none →
      (analyzeSubmission submission allSubmissions questions).scores.typingPattern = 0) ∧
    (∀ answers1 answers2 : List Answer, answers1.length ≠ answers2.length →
      calculateAnswerSimilarity (some answers1) (some answers2) = 0) ∧
    (∀ (submission : Submission) (allSubmissions : List Submission)
        (questions : List Question), submission.completionTime = none →
      1 ≤ questions.length →
      40 ≤ (detectTimeAnomalies submission allSubmissions questions).2 ∧
      "Suspiciously fast completion" ∈
        (detectTimeAnomalies submission allSubmissions questions).1) := by
  refine ⟨?_, ?_, ?_⟩
  · intro submission allSubmissions questions h
    simp [analyzeSubmission, h]
  · intro answers1 answers2 h
    simp [calculateAnswerSimilarity, h]
  · intro submission allSubmissions questions hct hq
    have hfast : timeFastPart (submission.completionTime.getD 0) questions.length =
        (["Suspiciously fast completion"], 40) := by
      rw [hct]
      unfold timeFastPart
      rw [if_pos]
      have : (1 : ℚ) ≤ (questions.length : ℚ) := by exact_mod_cast hq
      unfold suspiciousTimeThreshold
      simp only [Option.getD_none]
      linarith
    constructor
    · show 40 ≤ (detectTimeAnomalies submission allSubmissions questions).2
      unfold detectTimeAnomalies
      simp only [hfast]
      have h2 := timePeerPart_nonneg (submission.completionTime.getD 0)
        (allSubmissions.filter fun s =>
          hasCompletionTime s && s.participantId != submission.participantId)
      have h3 := timeQuestionPart_nonneg submission
      have h4 := timeTimingPart_nonneg submission
        (allSubmissions.filter fun s =>
          hasCompletionTime s && s.participantId != submission.participantId)
      refine le_min (by linarith) (by norm_num)
    · show _ ∈ (detectTimeAnomalies submission allSubmissions questions).1
      unfold detectTimeAnomalies
      simp only [hfast]
      simp

theorem optional_fields_degradation_witness :
    (analyzeSubmission ⟨1, [], none, none, none, none, none⟩ [] []).scores.typingPattern = 0 ∧
    calculateAnswerSimilarity (some [Answer.null]) (some []) = 0 ∧
    (40 ≤ (detectTimeAnomalies ⟨1, [], none, none, none, none, none⟩ [] [()]).2 ∧
      "Suspiciously fast completion" ∈
        (detectTimeAnomalies ⟨1, [], none, none, none, none, none⟩ [] [()]).1) :=
  ⟨optional_fields_degradation.1 ⟨1, [], none, none, none, none, none⟩ [] [] rfl,
   optional_fields_degradation.2.1 [Answer.null] [] (by decide),
   optional_fields_degradation.2.2 ⟨1, [], none, none, none, none, none⟩ [] [()] rfl
     (by decide)⟩

theorem jsToLower_length (s : JSString) : (jsToLower s).length = s.length :=
  List.length_map s Char.toLower

theorem jsTrim_length_le (s : JSString) : (jsTrim s).length ≤ s.length := by
  unfold jsTrim
  rw [List.length_reverse]
  refine le_trans (length_dropWhileWS_le _ _) ?_
  rw [List.length_reverse]
  exact length_dropWhileWS_le _ _

theorem similarity_fold_self (ans : List Answer)
    (h : ∀ a ∈ ans, ∃ s : JSString, a = .str s ∧ s.length ≤ 20 ∧
      jsTrim (jsToLower s) ≠ []) :
    ∀ acc : ℚ × ℕ, (ans.zip ans).foldl similarityStep acc =
      (acc.1 + ans.length, acc.2 + ans.length) := by
  induction ans with
  | nil => intro acc; simp
  | cons a l ih =>
    intro acc
    obtain ⟨s, rfl, hlen, hnorm⟩ := h a (List.mem_cons_self _ _)
    rw [List.zip_cons_cons, List.foldl_cons]
    have hstep : similarityStep acc (Answer.str s, Answer.str s) =
        (acc.1 + 1, acc.2 + 1) := by
      simp only [similarityStep, normalizeAnswer, truthy]
      rw [if_pos]
      · have hshort : ¬((jsTrim (jsToLower s)).length > 20 ∨
            (jsTrim (jsToLower s)).length > 20) := by
          have := le_trans (jsTrim_length_le (jsToLower s))
            (le_of_eq (jsToLower_length s))
          omega
        simp only [answerPairScore, if_neg hshort, if_pos rfl]
        norm_num
      · simp [List.isEmpty_eq_true, hnorm]
    rw [hstep, ih (fun a ha => h a (List.mem_cons_of_mem _ ha)) (acc.1 + 1, acc.2 + 1)]
    refine Prod.ext ?_ ?_
    · simp only [List.length_cons]
      push_cast
      ring
    · simp only [List.length_cons]
      omega

theorem calculateAnswerSimilarity_self (ans : List Answer) (hne : ans ≠ [])
    (h : ∀ a ∈ ans, ∃ s : JSString, a = .str s ∧ s.length ≤ 20 ∧
      jsTrim (jsToLower s) ≠ []) :
    calculateAnswerSimilarity (some ans) (some ans) = 1 := by
  have hlen : ans.length ≠ 0 := fun h0 => hne (List.length_eq_zero.1 h0)
  simp only [calculateAnswerSimilarity, if_pos rfl]
  rw [similarity_fold_self ans h (0, 0)]
  simp only [zero_add]
  rw [if_pos (Nat.pos_of_ne_zero hlen), div_self (Nat.cast_ne_zero.2 hlen)]
  norm_num

theorem simFold_mem_acc (submission : Submission) :
    ∀ (l : List Submission) (acc : List SuspiciousMatch × ℚ)
      (m : SuspiciousMatch), m ∈ acc.1 →
      m ∈ (l.foldl (similarityFoldStep submission) acc).1 := by
  intro l
  induction l with
  | nil => intro acc m hm; exact hm
  | cons o l ih =>
    intro acc m hm
    rw [List.foldl_cons]
    apply ih
    simp only [similarityFoldStep]
    split
    · exact hm
    · split
      · exact List.mem_append_left _ hm
      · exact hm

theorem simFold_mem_of_qualifies (submission o : Submission) :
    ∀ l : List Submission, o ∈ l →
      ¬o.participantId = submission.participantId → ¬o.answers = none →
      calculateAnswerSimilarity submission.answers o.answers ≥ similarityThreshold →
      ∀ acc : List SuspiciousMatch × ℚ,
        ∃ m ∈ (l.foldl (similarityFoldStep submission) acc).1,
          m.participantId = o.participantId := by
  intro l
  induction l with
  | nil => intro ho; exact absurd ho (List.not_mem_nil o)
  | cons x l ih =>
    intro ho hid hans hth acc
    rcases List.mem_cons.1 ho with rfl | ho
    · rw [List.foldl_cons]
      refine ⟨⟨o.participantId, o.participantName,
        jsRound (calculateAnswerSimilarity submission.answers o.answers * 100),
        getMatchingAnswers (submission.answers.getD []) (o.answers.getD [])⟩,
        ?_, rfl⟩
      apply simFold_mem_acc
      simp only [similarityFoldStep]
      rw [if_neg (by tauto), if_pos hth]
      simp
    · rw [List.foldl_cons]
      exact ih ho hid hans hth _

theorem exists_similarity_flag (submission : Submission)
    (allSubmissions : List Submission) (questions : List Question)
    (h : ¬(detectAnswerSimilarity submission allSubmissions).1 = []) :
    ∃ f ∈ (analyzeSubmission submission allSubmissions questions).flags,
      f.type = "ANSWER_SIMILARITY" := by
  refine ⟨⟨"ANSWER_SIMILARITY",
    getSeverity (detectAnswerSimilarity submission allSubmissions).2,
    .similarity (detectAnswerSimilarity submission allSubmissions).1⟩, ?_, rfl⟩
  simp only [analyzeSubmission]
  apply List.mem_append_left
  rw [if_pos (by simpa [List.length_pos] using h)]
  simp

/-- Claim C4 as amended: for every two submissions with distinct
participant ids and identical answer sequences of length at least 1
composed entirely of short strings (each at most 20 characters) that are
non-empty after lowercasing and trimming, the pairwise similarity is 1.0,
each analysis lists the other in its suspicious matches, and each analysis
carries an `ANSWER_SIMILARITY` flag. -/
theorem identical_short_answers_flagged (A B : Submission) (ans : List Answer)
    (hA : A.answers = some ans) (hB : B.answers = some ans)
    (hid : ¬A.participantId = B.participantId) (hne : ans ≠ [])
    (hshort : ∀ a ∈ ans, ∃ s : JSString, a = .str s ∧ s.length ≤ 20 ∧
      jsTrim (jsToLower s) ≠ []) :
    calculateAnswerSimilarity A.answers B.answers = 1 ∧
    (∀ allSubmissions : List Submission, B ∈ allSubmissions →
      ∃ m ∈ (detectAnswerSimilarity A allSubmissions).1,
        m.participantId = B.participantId) ∧
    (∀ allSubmissions : List Submission, A ∈ allSubmissions →
      ∃ m ∈ (detectAnswerSimilarity B allSubmissions).1,
        m.participantId = A.participantId) ∧
    (∀ (allSubmissions : List Submission) (questions : List Question),
      B ∈ allSubmissions →
      ∃ f ∈ (analyzeSubmission A allSubmissions questions).flags,
        f.type = "ANSWER_SIMILARITY") ∧
    (∀ (allSubmissions : List Submission) (questions : List Question),
      A ∈ allSubmissions →
      ∃ f ∈ (analyzeSubmission B allSubmissions questions).flags,
        f.type = "ANSWER_SIMILARITY") := by
  have hsim1 : calculateAnswerSimilarity A.answers B.answers = 1 := by
    rw [hA, hB]; exact calculateAnswerSimilarity_self ans hne hshort
  have hsim2 : calculateAnswerSimilarity B.answers A.answers = 1 := by
    rw [hA, hB]; exact calculateAnswerSimilarity_self ans hne hshort
  have hth1 : calculateAnswerSimilarity A.answers B.answers ≥ similarityThreshold := by
    rw [hsim1]; norm_num [similarityThreshold]
  have hth2 : calculateAnswerSimilarity B.answers A.answers ≥ similarityThreshold := by
    rw [hsim2]; norm_num [similarityThreshold]
  have hmem1 : ∀ allSubmissions : List Submission, B ∈ allSubmissions →
      ∃ m ∈ (detectAnswerSimilarity A allSubmissions).1,
        m.participantId = B.participantId := fun l hl =>
    simFold_mem_of_qualifies A B l hl (fun hc => hid hc.symm)
      (by rw [hB]; exact Option.some_ne_none ans) hth1 ([], 0)
  have hmem2 : ∀ allSubmissions : List Submission, A ∈ allSubmissions →
      ∃ m ∈ (detectAnswerSimilarity B allSubmissions).1,
        m.participantId = A.participantId := fun l hl =>
    simFold_mem_of_qualifies B A l hl hid
      (by rw [hA]; exact Option.some_ne_none ans) hth2 ([], 0)
  refine ⟨hsim1, hmem1, hmem2, ?_, ?_⟩
  · intro l qs hl
    obtain ⟨m, hm, _⟩ := hmem1 l hl
    exact exists_similarity_flag A l qs (by rintro hnil; rw [hnil] at hm; exact List.not_mem_nil m hm)
  · intro l qs hl
    obtain ⟨m, hm, _⟩ := hmem2 l hl
    exact exists_similarity_flag B l qs (by rintro hnil; rw [hnil] at hm; exact List.not_mem_nil m hm)

theorem identical_short_answers_flagged_witness :
    calculateAnswerSimilarity (some [Answer.str ['h', 'i']])
      (some [Answer.str ['h', 'i']]) = 1 ∧
    ∃ m ∈ (detectAnswerSimilarity
        ⟨1, [], some [Answer.str ['h', 'i']], none, none, none, none⟩
        [⟨2, [], some [Answer.str ['h', 'i']], none, none, none, none⟩]).1,
      m.participantId = 2 := by
  have h := identical_short_answers_flagged
    ⟨1, [], some [Answer.str ['h', 'i']], none, none, none, none⟩
    ⟨2, [], some [Answer.str ['h', 'i']], none, none, none, none⟩
    [Answer.str ['h', 'i']] rfl rfl (by decide) (by decide)
    (by
      intro a ha
      rw [List.mem_singleton] at ha
      subst ha
      exact ⟨['h', 'i'], rfl, by decide, by with_unfolding_all decide⟩)
  exact ⟨h.1, h.2.1 _ (List.mem_singleton_self _)⟩

theorem jaccardSimilarity_nonneg (a b : JSString) : 0 ≤ jaccardSimilarity a b := by
  simp only [jaccardSimilarity]
  split
  · norm_num
  · positivity

theorem jaccardSimilarity_le_one (a b : JSString) : jaccardSimilarity a b ≤ 1 := by
  simp only [jaccardSimilarity]
  split
  · norm_num
  · rename_i h
    rw [div_le_one (by exact_mod_cast Nat.pos_of_ne_zero h)]
    exact_mod_cast Finset.card_le_card Finset.inter_subset_union

theorem levenshteinSimilarity_nonneg (a b : JSString) :
    0 ≤ levenshteinSimilarity a b := by
  simp only [levenshteinSimilarity]
  split
  · norm_num
  · rename_i h
    have hle := levenshteinDistance_le_max a b
    have hpos : (0 : ℚ) < (max a.length b.length : ℕ) := by
      exact_mod_cast Nat.pos_of_ne_zero h
    have hdiv : (levenshteinDistance a b : ℚ) / ((max a.length b.length : ℕ) : ℚ) ≤ 1 := by
      rw [div_le_one hpos]
      exact_mod_cast hle
    linarith

theorem levenshteinSimilarity_le_one (a b : JSString) :
    levenshteinSimilarity a b ≤ 1 := by
  simp only [levenshteinSimilarity]
  split
  · norm_num
  · have hdiv : (0 : ℚ) ≤ (levenshteinDistance a b : ℚ) /
        ((max a.length b.length : ℕ) : ℚ) := by positivity
    linarith

theorem answerPairScoreStr_bounds (s1 s2 : JSString) :
    0 ≤ answerPairScore (.str s1) (.str s2) ∧
    answerPairScore (.str s1) (.str s2) ≤ 1 := by
  simp only [answerPairScore]
  split_ifs
  · have g1 := jaccardSimilarity_nonneg s1 s2
    have g2 := jaccardSimilarity_le_one s1 s2
    have g3 := levenshteinSimilarity_nonneg s1 s2
    have g4 := levenshteinSimilarity_le_one s1 s2
    constructor <;> linarith
  · constructor <;> norm_num
  · constructor <;> norm_num

theorem answerPairScore_bounds (a1 a2 : Answer) :
    0 ≤ answerPairScore a1 a2 ∧ answerPairScore a1 a2 ≤ 1 := by
  cases a1 with
  | str s1 =>
    cases a2 with
    | str s2 => exact answerPairScoreStr_bounds s1 s2
    | num q => simp only [answerPairScore]; split_ifs <;> constructor <;> norm_num
    | bool b => simp only [answerPairScore]; split_ifs <;> constructor <;> norm_num
    | arr l => simp only [answerPairScore]; split_ifs <;> constructor <;> norm_num
    | null => simp only [answerPairScore]; split_ifs <;> constructor <;> norm_num
  | num q =>
    cases a2 <;> (simp only [answerPairScore]; split_ifs <;> constructor <;> norm_num)
  | bool b =>
    cases a2 <;> (simp only [answerPairScore]; split_ifs <;> constructor <;> norm_num)
  | arr l =>
    cases a2 <;> (simp only [answerPairScore]; split_ifs <;> constructor <;> norm_num)
  | null =>
    cases a2 <;> (simp only [answerPairScore]; split_ifs <;> constructor <;> norm_num)

theorem similarityStep_bounds (acc : ℚ × ℕ) (p : Answer × Answer)
    (h1 : 0 ≤ acc.1) (h2 : acc.1 ≤ (acc.2 : ℚ)) :
    0 ≤ (similarityStep acc p).1 ∧
    (similarityStep acc p).1 ≤ ((similarityStep acc p).2 : ℚ) := by
  simp only [similarityStep]
  split
  · have hb := answerPairScore_bounds (normalizeAnswer p.1) (normalizeAnswer p.2)
    constructor
    · exact add_nonneg h1 hb.1
    · show acc.1 + _ ≤ ((acc.2 + 1 : ℕ) : ℚ)
      push_cast
      linarith [hb.2]
  · exact ⟨h1, h2⟩

theorem similarity_fold_bounds (pairs : List (Answer × Answer)) :
    ∀ acc : ℚ × ℕ, 0 ≤ acc.1 → acc.1 ≤ (acc.2 : ℚ) →
      0 ≤ (pairs.foldl similarityStep acc).1 ∧
      (pairs.foldl similarityStep acc).1 ≤
        ((pairs.foldl similarityStep acc).2 : ℚ) := by
  induction pairs with
  | nil => intro acc h1 h2; exact ⟨h1, h2⟩
  | cons p l ih =>
    intro acc h1 h2
    rw [List.foldl_cons]
    obtain ⟨g1, g2⟩ := similarityStep_bounds acc p h1 h2
    exact ih _ g1 g2

theorem calculateAnswerSimilarity_bounds (o1 o2 : Option (List Answer)) :
    0 ≤ calculateAnswerSimilarity o1 o2 ∧ calculateAnswerSimilarity o1 o2 ≤ 1 := by
  match o1, o2 with
  | some l1, some l2 =>
    simp only [calculateAnswerSimilarity]
    split_ifs with hlen hcnt
    · obtain ⟨hb1, hb2⟩ :=
        similarity_fold_bounds (l1.zip l2) (0, 0) le_rfl (by norm_num)
      constructor
      · exact div_nonneg hb1 (Nat.cast_nonneg _)
      · rw [div_le_one (by exact_mod_cast hcnt)]
        exact hb2
    · constructor <;> norm_num
    · constructor <;> norm_num
  | some l1, none => constructor <;> simp [calculateAnswerSimilarity]
  | none, o2 => constructor <;> simp [calculateAnswerSimilarity]

theorem simFold_max_bounds (submission : Submission) :
    ∀ (l : List Submission) (acc : List SuspiciousMatch × ℚ),
      0 ≤ acc.2 → acc.2 ≤ 100 →
      0 ≤ (l.foldl (similarityFoldStep submission) acc).2 ∧
      (l.foldl (similarityFoldStep submission) acc).2 ≤ 100 := by
  intro l
  induction l with
  | nil => intro acc h1 h2; exact ⟨h1, h2⟩
  | cons o l ih =>
    intro acc h1 h2
    rw [List.foldl_cons]
    simp only [similarityFoldStep]
    split
    · exact ih acc h1 h2
    · split
      · refine ih _ (le_trans h1 (le_max_left _ _)) (max_le h2 ?_)
        have := (calculateAnswerSimilarity_bounds submission.answers o.answers).2
        linarith
      · exact ih acc h1 h2

theorem analyzeTypingPattern_bounds (typingData : TypingData) :
    0 ≤ (analyzeTypingPattern typingData).2 ∧
    (analyzeTypingPattern typingData).2 ≤ 100 := by
  have g1 := typingSpeedPart_nonneg typingData
  have g2 := typingPausePart_nonneg typingData
  have g3 := typingChangesPart_nonneg typingData
  simp only [analyzeTypingPattern]
  exact ⟨le_min (by linarith) (by norm_num), min_le_right _ _⟩

theorem detectTimeAnomalies_bounds (submission : Submission)
    (allSubmissions : List Submission) (questions : List Question) :
    0 ≤ (detectTimeAnomalies submission allSubmissions questions).2 ∧
    (detectTimeAnomalies submission allSubmissions questions).2 ≤ 100 := by
  have g1 := timeFastPart_nonneg (submission.completionTime.getD 0) questions.length
  have g2 := timePeerPart_nonneg (submission.completionTime.getD 0)
    (allSubmissions.filter fun s =>
      hasCompletionTime s && s.participantId != submission.participantId)
  have g3 := timeQuestionPart_nonneg submission
  have g4 := timeTimingPart_nonneg submission
    (allSubmissions.filter fun s =>
      hasCompletionTime s && s.participantId != submission.participantId)
  simp only [detectTimeAnomalies]
  exact ⟨le_min (by linarith) (by norm_num), min_le_right _ _⟩

theorem jsRound_bounds (q : ℚ) (h1 : 0 ≤ q) (h2 : q ≤ 100) :
    0 ≤ jsRound q ∧ jsRound q ≤ 100 := by
  unfold jsRound
  constructor
  · exact Int.floor_nonneg.2 (by linarith)
  · have hlt : (⌊q + 1 / 2⌋ : ℤ) < 101 := by
      rw [Int.floor_lt]
      push_cast
      linarith
    omega

/-- Claim C6: for every input, each of the three sub-scores and the overall
`suspicionScore` of `analyzeSubmission` lie in `[0, 100]`: the per-pair
similarity lies in `[0, 1]` so `maxScore` lies in `[0, 100]`, both anomaly
analyzers clamp a sum of nonnegative penalties with `min(·, 100)`, and the
rounded 0.5/0.3/0.2-weighted combination of values in `[0, 100]` stays in
`[0, 100]`. -/
theorem analysis_scores_within_range (submission : Submission)
    (allSubmissions : List Submission) (questions : List Question) :
    let r := analyzeSubmission submission allSubmissions questions
    (0 ≤ r.scores.answerSimilarity ∧ r.scores.answerSimilarity ≤ 100) ∧
    (0 ≤ r.scores.typingPattern ∧ r.scores.typingPattern ≤ 100) ∧
    (0 ≤ r.scores.timeAnomaly ∧ r.scores.timeAnomaly ≤ 100) ∧
    (0 ≤ r.suspicionScore ∧ r.suspicionScore ≤ 100) := by
  have hA : 0 ≤ (detectAnswerSimilarity submission allSubmissions).2 ∧
      (detectAnswerSimilarity submission allSubmissions).2 ≤ 100 := by
    unfold detectAnswerSimilarity
    exact simFold_max_bounds submission allSubmissions ([], 0) le_rfl (by norm_num)
  have hT : 0 ≤ (match submission.typingData with
        | some typingData => analyzeTypingPattern typingData
        | none => (([] : List String), (0 : ℚ))).2 ∧
      (match submission.typingData with
        | some typingData => analyzeTypingPattern typingData
        | none => (([] : List String), (0 : ℚ))).2 ≤ 100 := by
    rcases submission.typingData with _ | typingData
    · constructor <;> norm_num
    · exact analyzeTypingPattern_bounds typingData
  have hM := detectTimeAnomalies_bounds submission allSubmissions questions
  have hR := jsRound_bounds
    ((detectAnswerSimilarity submission allSubmissions).2 * (1 / 2) +
      (match submission.typingData with
        | some typingData => analyzeTypingPattern typingData
        | none => (([] : List String), (0 : ℚ))).2 * (3 / 10) +
      (detectTimeAnomalies submission allSubmissions questions).2 * (1 / 5))
    (by nlinarith [hA.1, hT.1, hM.1])
    (by nlinarith [hA.1, hA.2, hT.1, hT.2, hM.1, hM.2])
  exact ⟨hA, hT, hM, hR⟩

end PlagiarismDetector
